import Mathlib

/-
Verification development for the YouTube P2P chat extension.

The development shallowly embeds the extension's storage service
(`src/services/storage-service.js`), the P2P session service
(`src/services/p2p-service.js`), the background service worker, the chat
UI input paths and the content-script send path.  JavaScript values that
may be `undefined` are embedded as `Option`; JavaScript truthiness of
strings and numbers (where `undefined`, `""` and `0` are falsy) is made
explicit through the `jsTruthy`/`jsOr` helpers.  The Dexie (IndexedDB)
`messages` table is embedded as a list of rows kept in primary-key
order: the table is declared `'++id, roomId, userId, timestamp'`, ids
are assigned by an increasing counter and `add` appends, so list order
coincides with primary-key order; `where('roomId').equals(r)` iterates
the `roomId` index, which for equal index keys yields rows in ascending
primary-key order, i.e. a filter of the list.  `DOMPurify.sanitize` is
an external library function and is embedded as an abstract parameter
`sanitize : String → String`; `Fuse` fuzzy matching is embedded as an
abstract matcher over the configured keys (`text`, `nickname`), with
the empty pattern matching nothing, per Fuse semantics.  JavaScript's
stable `Array.prototype.sort` with a numeric comparator is embedded as
a stable sort by the compared key.
-/

/-- Embedding of JS `String.prototype.trim`: strips leading and trailing
whitespace (character-level, so concrete runs evaluate in the kernel). -/
def jsTrim (s : String) : String :=
  String.mk (((s.data.dropWhile Char.isWhitespace).reverse.dropWhile
    Char.isWhitespace).reverse)

/-- Truthiness of a JS string-or-undefined value: `undefined` and `""` are falsy. -/
def jsTruthyStr : Option String → Bool
  | none => false
  | some v => v ≠ ""

/-- JS `a || b` where `a` is a string or `undefined`: yields `b` when `a` is falsy. -/
def jsOrStr (a : Option String) (b : String) : String :=
  match a with
  | none => b
  | some v => if v = "" then b else v

/-- JS `a || b` where `a` is a number or `undefined`: `undefined` and `0` are falsy. -/
def jsOrNat (a : Option Nat) (b : Nat) : Nat :=
  match a with
  | none => b
  | some v => if v = 0 then b else v

/-- A row of the Dexie `messages` table, as written by `saveMessage`
(storage-service.js lines 26-32). -/
structure StoredMessage where
  id : Nat
  roomId : String
  userId : Option String
  nickname : String
  text : String
  timestamp : Nat
deriving Repr, DecidableEq

/-- A wire/UI message object `{roomId, userId, nickname, text, timestamp}` as
passed to `saveMessage` and the transport; `nickname` and `timestamp` may be
absent (`undefined`). -/
structure MessageData where
  roomId : String
  userId : Option String
  nickname : Option String
  text : String
  timestamp : Option Nat
deriving Repr, DecidableEq

/-- The Dexie `messages` table: auto-increment counter plus rows in
primary-key (insertion) order. -/
structure MessagesDB where
  nextId : Nat
  rows : List StoredMessage
deriving Repr, DecidableEq

/-- A fresh `messages` table. -/
def MessagesDB.empty : MessagesDB := { nextId := 1, rows := [] }

/-- Result object of `saveMessage`. -/
structure SaveResult where
  success : Bool
  id : Option Nat
  error : Option String
deriving Repr, DecidableEq

/-- Ordering of stored messages by their `timestamp` field, the comparator
`(a, b) => a.timestamp - b.timestamp` of storage-service.js line 81. -/
def tsLe (a b : StoredMessage) : Prop := a.timestamp ≤ b.timestamp

instance : DecidableRel tsLe := fun a b => Nat.decLe a.timestamp b.timestamp

instance : IsTotal StoredMessage tsLe := ⟨fun a b => Nat.le_total a.timestamp b.timestamp⟩

instance : IsTrans StoredMessage tsLe := ⟨fun _ _ _ hab hbc => Nat.le_trans hab hbc⟩

namespace StorageService

/-- Embedding of `saveMessage` (storage-service.js lines 17-39): sanitizes the
text with DOMPurify, then `db.messages.add` a row with defaulted nickname and
timestamp (`messageData.nickname || 'Anonymous'`,
`messageData.timestamp || Date.now()`).  `now` stands for `Date.now()` and
`sanitize` for `DOMPurify.sanitize`. -/
def saveMessage (sanitize : String → String) (now : Nat) (db : MessagesDB)
    (m : MessageData) : MessagesDB × SaveResult :=
  let row : StoredMessage :=
    { id := db.nextId
      roomId := m.roomId
      userId := m.userId
      nickname := jsOrStr m.nickname "Anonymous"
      text := sanitize m.text
      timestamp := jsOrNat m.timestamp now }
  ({ nextId := db.nextId + 1, rows := db.rows ++ [row] },
   { success := true, id := some db.nextId, error := none })

/-- Embedding of `db.messages.where('roomId').equals(roomId)`: the rows of the
room in ascending primary-key order (the `roomId` index enumerates rows with
equal index key by primary key). -/
def whereRoomId (db : MessagesDB) (roomId : String) : List StoredMessage :=
  db.rows.filter (fun m => m.roomId == roomId)

/-- Embedding of `getMessagesForRoom` (storage-service.js lines 42-57): the
index enumeration is reversed (newest primary key first), truncated to
`limit`, and the resulting array reversed again before returning. -/
def getMessagesForRoom (db : MessagesDB) (roomId : String) (limit : Nat) :
    List StoredMessage :=
  ((whereRoomId db roomId).reverse.take limit).reverse

/-- Model of `Fuse.search` with the configuration of storage-service.js lines
69-73 (`keys: ['text', 'nickname']`): selects the items whose `text` or
`nickname` field fuzzily matches the pattern, where the fuzzy matcher itself
is abstract (`fmatch`); an empty pattern matches nothing, per Fuse semantics. -/
def fuseSearch (fmatch : String → String → Bool) (query : String)
    (items : List StoredMessage) : List StoredMessage :=
  if query = "" then []
  else items.filter (fun m => fmatch query m.text || fmatch query m.nickname)

/-- Embedding of `searchMessages` (storage-service.js lines 60-86): fetch the
room's rows, run the Fuse search over them, map results back to items and
sort ascending by `timestamp` (stable JS sort). -/
def searchMessages (fmatch : String → String → Bool) (db : MessagesDB)
    (roomId : String) (query : String) : List StoredMessage :=
  let messages := whereRoomId db roomId
  let results := fuseSearch fmatch query messages
  List.insertionSort tsLe results

/-- A row of the Dexie `rooms` table, as written by `saveRoom`
(storage-service.js lines 91-97). -/
structure RoomRecord where
  id : String
  name : String
  videoId : String
  createdAt : Nat
  lastActive : Nat
deriving Repr, DecidableEq

/-- Input object of `saveRoom`; `name` and `createdAt` may be absent. -/
structure RoomData where
  id : String
  name : Option String
  videoId : String
  createdAt : Option Nat
deriving Repr, DecidableEq

/-- The Dexie `rooms` table (keyed by `id`). -/
structure RoomsDB where
  rows : List RoomRecord
deriving Repr, DecidableEq

/-- Index keys declared for the `rooms` table by `db.version(1).stores`
(storage-service.js line 12): `'id, name, createdAt'`. -/
def roomsStoreIndexes : List String := ["id", "name", "createdAt"]

/-- Dexie `Table.orderBy(keyPath)` on the `rooms` table: yields the rows
sorted ascending by the key when `keyPath` is one of the table's declared
index keys, and fails with `SchemaError` otherwise (`keyPath` is the name of
the key whose extractor is `key`). -/
def roomsOrderBy (keyPath : String) (key : RoomRecord → Nat) (db : RoomsDB) :
    Except String (List RoomRecord) :=
  if keyPath ∈ roomsStoreIndexes then
    Except.ok (@List.insertionSort _ (fun a b => key a ≤ key b)
      (fun a b => Nat.decLe (key a) (key b)) db.rows)
  else
    Except.error "SchemaError"

/-- Embedding of `saveRoom` (storage-service.js lines 89-104): `put` upserts a
record keyed by `id`, defaulting `name` and `createdAt` and stamping
`lastActive: Date.now()`. -/
def saveRoom (now : Nat) (rd : RoomData) (db : RoomsDB) : RoomsDB :=
  let rcd : RoomRecord :=
    { id := rd.id
      name := jsOrStr rd.name ("Room for " ++ rd.videoId)
      videoId := rd.videoId
      createdAt := jsOrNat rd.createdAt now
      lastActive := now }
  if db.rows.any (fun r => r.id == rd.id) then
    { rows := db.rows.map (fun r => if r.id == rd.id then rcd else r) }
  else
    { rows := db.rows ++ [rcd] }

/-- Embedding of `getRooms` (storage-service.js lines 107-117):
`db.rooms.orderBy('lastActive').reverse().toArray()`, with the `catch`
returning `[]` when the query fails. -/
def getRooms (db : RoomsDB) : List RoomRecord :=
  match roomsOrderBy "lastActive" (fun r => r.lastActive) db with
  | Except.ok sorted => sorted.reverse
  | Except.error _ => []

end StorageService

/-- A PeerJS data connection as tracked in `this.connections`: the remote
peer id and whether `conn.open` holds. -/
structure Conn where
  peer : String
  isOpen : Bool
deriving Repr, DecidableEq

/-- The mutable fields of the `P2PService` singleton (p2p-service.js
constructor, lines 454-464), together with the Dexie `messages` table it
writes through `saveMessage`.  `socketInit` records whether `this.socket` has
been assigned by `initializeWebSocketFallback` (otherwise it is `null`);
`messageCallbacks` is the number of callbacks registered through
`onMessage`. -/
structure P2PState where
  peerId : Option String
  roomId : Option String
  videoId : Option String
  connections : List Conn
  socketInit : Bool
  useWebSocketFallback : Bool
  messageCallbacks : Nat
  db : MessagesDB
deriving Repr, DecidableEq

/-- The freshly constructed `P2PService` state over an empty store. -/
def P2PState.initial : P2PState :=
  { peerId := none, roomId := none, videoId := none, connections := []
    socketInit := false, useWebSocketFallback := false
    messageCallbacks := 0, db := MessagesDB.empty }

/-- An observable transport action emitted by the service. -/
inductive SendEvent
  | wsEmitChat (roomId : Option String) (data : MessageData)
  | peerSend (peer : String) (data : MessageData)
  | wsJoinRoom (roomId : Option String) (peerId : Option String)
deriving Repr, DecidableEq

/-- Result object of `P2PService.sendMessage`. -/
structure SendResult where
  success : Bool
  error : Option String
deriving Repr, DecidableEq

/-- Result object of `P2PService.initialize` / `initializeWebSocketFallback`. -/
structure InitResult where
  success : Bool
  peerId : Option String
  roomId : Option String
  usingFallback : Bool
  error : Option String
deriving Repr, DecidableEq

/-- Result object of `P2PService.joinRoom`. -/
structure JoinResult where
  success : Bool
  roomId : Option String
  messages : List StoredMessage
  error : Option String
deriving Repr, DecidableEq

namespace P2PService

/-- The identity step of `initialize` (p2p-service.js lines 472-478):
`this.peerId = storedData.peerId || uuidv4()`, and the id is written back to
`chrome.storage.local` only when no truthy stored id existed.  `fresh` stands
for the `uuidv4()` result and `stored` for `storedData.peerId`; returns the
adopted peer id and the new storage contents. -/
def ensurePeerId (fresh : String) (stored : Option String) :
    String × Option String :=
  let pid := jsOrStr stored fresh
  let stored' := if jsTruthyStr stored then stored else some pid
  (pid, stored')

/-- Embedding of `initializeWebSocketFallback` (p2p-service.js lines
576-600): assigns `this.socket = io(...)` and reports success with
`usingFallback: true`. -/
def initializeWebSocketFallback (s : P2PState) : P2PState × InitResult :=
  ({ s with socketInit := true },
   { success := true, peerId := s.peerId, roomId := s.roomId
     usingFallback := true, error := none })

/-- Embedding of `initialize` (p2p-service.js lines 467-505): records the
video id, adopts the peer id, derives the room id
`yt-<videoId>-<uuid.substring(0,8)>` and attempts PeerJS.  `meshOk` is
whether the PeerJS `open` event fires rather than `error` (the awaited
promise of `initializePeerJS`); on failure the catch sets
`useWebSocketFallback` and runs the WebSocket fallback — unless the flag was
already set, in which case the failure is returned.  `freshPeer` and
`freshRoom` stand for the two `uuidv4()` draws and `stored` for
`chrome.storage.local`'s `peerId` slot; returns the new service state, the
new storage contents and the result object. -/
def initSession (meshOk : Bool) (freshPeer freshRoom videoId : String)
    (stored : Option String) (s : P2PState) :
    P2PState × Option String × InitResult :=
  let (pid, stored') := ensurePeerId freshPeer stored
  let rid := "yt-" ++ videoId ++ "-" ++ String.mk (freshRoom.data.take 8)
  let s1 := { s with videoId := some videoId, peerId := some pid,
                     roomId := some rid }
  if meshOk then
    (s1, stored',
     { success := true, peerId := some pid, roomId := some rid
       usingFallback := false, error := none })
  else if s1.useWebSocketFallback then
    (s1, stored',
     { success := false, peerId := none, roomId := none
       usingFallback := false, error := some "peer error" })
  else
    let s2 := { s1 with useWebSocketFallback := true }
    let (s3, res) := initializeWebSocketFallback s2
    (s3, stored', res)

/-- Embedding of `sendMessage` (p2p-service.js lines 628-656): saves the
message to local storage, then emits over the socket when on the WebSocket
fallback (a `TypeError` on a null socket is caught and reported) or sends on
every open peer connection otherwise; returns `{success: true}`. -/
def sendMessage (sanitize : String → String) (now : Nat) (data : MessageData)
    (s : P2PState) : P2PState × SendResult × List SendEvent :=
  let db' := (StorageService.saveMessage sanitize now s.db data).1
  let s' := { s with db := db' }
  if s.useWebSocketFallback then
    if s.socketInit then
      (s', { success := true, error := none },
       [SendEvent.wsEmitChat s.roomId data])
    else
      (s', { success := false, error := some "TypeError" }, [])
  else
    (s', { success := true, error := none },
     ((s.connections.filter (fun c => c.isOpen)).map
       (fun c => SendEvent.peerSend c.peer data)))

/-- Embedding of `joinRoom` (p2p-service.js lines 659-686): installs the room
id as `this.roomId`, emits `join-room` when on the WebSocket fallback (a
`TypeError` on a null socket is caught and reported), loads the previous
messages and returns success with the same room id. -/
def joinRoom (roomId : String) (s : P2PState) :
    P2PState × List SendEvent × JoinResult :=
  let s1 := { s with roomId := some roomId }
  if s.useWebSocketFallback ∧ ¬ s.socketInit then
    (s1, [], { success := false, roomId := none, messages := []
               error := some "TypeError" })
  else
    let events := if s.useWebSocketFallback
      then [SendEvent.wsJoinRoom (some roomId) s.peerId] else []
    let msgs := StorageService.getMessagesForRoom s.db roomId 50
    (s1, events,
     { success := true, roomId := some roomId, messages := msgs
       error := none })

/-- Embedding of `handleIncomingMessage` (p2p-service.js lines 688-697):
saves the wire data to local storage and invokes every registered callback
with the (raw) data; returns the new state and the list of callback
notification payloads, one per registered callback. -/
def handleIncomingMessage (sanitize : String → String) (now : Nat)
    (data : MessageData) (s : P2PState) : P2PState × List MessageData :=
  let db' := (StorageService.saveMessage sanitize now s.db data).1
  ({ s with db := db' }, List.replicate s.messageCallbacks data)

/-- Embedding of `onMessage` (p2p-service.js lines 700-702): registers one
more callback. -/
def onMessage (s : P2PState) : P2PState :=
  { s with messageCallbacks := s.messageCallbacks + 1 }

/-- Embedding of `handleConnection` (p2p-service.js lines 538-559): records
the connection under the remote peer id. -/
def handleConnection (c : Conn) (s : P2PState) : P2PState :=
  { s with connections := s.connections.filter (fun x => x.peer ≠ c.peer) ++ [c] }

/-- Embedding of the `close`/`error` handlers of a connection (p2p-service.js
lines 550-558): the connection is deleted from `this.connections`. -/
def connClosed (peer : String) (s : P2PState) : P2PState :=
  { s with connections := s.connections.filter (fun x => x.peer ≠ peer) }

/-- Embedding of `cleanup` (p2p-service.js lines 705-715): destroys the peer,
disconnects the socket and clears the connection map (the fallback flag is
left untouched). -/
def cleanup (s : P2PState) : P2PState :=
  { s with connections := [] }

/-- One externally triggered operation on the service, used to reason about
all reachable behaviours. -/
inductive Op
  | init (meshOk : Bool) (freshPeer freshRoom videoId : String)
      (stored : Option String)
  | send (now : Nat) (data : MessageData)
  | incoming (now : Nat) (data : MessageData)
  | join (roomId : String)
  | subscribe
  | connect (c : Conn)
  | disconnectPeer (peer : String)
  | teardown

/-- State transition of a single operation (results projected away). -/
def step (sanitize : String → String) (op : Op) (s : P2PState) : P2PState :=
  match op with
  | Op.init meshOk fp fr vid stored => (initSession meshOk fp fr vid stored s).1
  | Op.send now data => (sendMessage sanitize now data s).1
  | Op.incoming now data => (handleIncomingMessage sanitize now data s).1
  | Op.join roomId => (joinRoom roomId s).1
  | Op.subscribe => onMessage s
  | Op.connect c => handleConnection c s
  | Op.disconnectPeer p => connClosed p s
  | Op.teardown => cleanup s

/-- Run a sequence of operations from a starting state. -/
def run (sanitize : String → String) (ops : List Op) (s : P2PState) : P2PState :=
  ops.foldl (fun st op => step sanitize op st) s

end P2PService

namespace Background

/-- Embedding of the `chrome.runtime.onInstalled` listener (background
worker, lines 320-330): reads `userId` from `chrome.storage.local` and, when
no truthy id is stored, generates and stores a fresh one.  `fresh` stands for
the `uuidv4()` draw; returns the id held in storage after the call together
with the new storage contents. -/
def ensureUserId (fresh : String) (stored : Option String) :
    String × Option String :=
  if jsTruthyStr stored then
    (stored.getD "", stored)
  else
    (fresh, some fresh)

/-- Embedding of the background `sendMessageToPeers` (background worker,
lines 399-417): a stub that performs no delivery and reports success. -/
def sendMessageToPeers : SendResult :=
  { success := true, error := none }

end Background

namespace InputBox

/-- Embedding of the chat UI `InputBox.sendMessage` (chat components, lines
255-284): rejects blank input (`!messageText.trim()`), otherwise builds the
message object, sends it through `p2pService.sendMessage` and, on success,
appends the (raw) message to the feed via `onMessageSent` and clears the
input.  Returns the new service state, the transport events, the new feed
and the new input-box text. -/
def sendMessage (sanitize : String → String) (now : Nat)
    (messageText nickname roomId : String) (userId : Option String)
    (s : P2PState) (feed : List MessageData) :
    P2PState × List SendEvent × List MessageData × String :=
  if jsTrim messageText = "" then
    (s, [], feed, messageText)
  else
    let data : MessageData :=
      { roomId := roomId, userId := userId, nickname := some nickname
        text := messageText, timestamp := some now }
    let (s', res, events) := P2PService.sendMessage sanitize now data s
    if res.success then
      (s', events, feed ++ [data], "")
    else
      (s', events, feed, messageText)

end InputBox

namespace ChatContainer

/-- Embedding of the `p2pService.onMessage` handler installed by
`ChatContainer` (chat components, lines 57-59): appends the received data,
as is, to the displayed message feed. -/
def onIncoming (feed : List MessageData) (data : MessageData) :
    List MessageData :=
  feed ++ [data]

end ChatContainer

namespace ContentScript

/-- A message object built by the content script's `sendMessage` (it carries
no `roomId`). -/
structure BgMessage where
  userId : Option String
  nickname : String
  text : String
  timestamp : Nat
deriving Repr, DecidableEq

/-- Embedding of the content script `sendMessage` (content/index.js lines
213-256): trims the input value, rejects blank input, otherwise forwards the
message to the background worker and, on its success response, appends it to
the messages area and clears the input.  Returns the messages area and the
input value afterwards. -/
def sendMessage (value : String) (userId : Option String)
    (nickname : Option String) (now : Nat) (area : List BgMessage) :
    List BgMessage × String :=
  let messageText := jsTrim value
  if messageText = "" then
    (area, value)
  else
    let data : BgMessage :=
      { userId := userId, nickname := jsOrStr nickname "Anonymous"
        text := messageText, timestamp := now }
    if Background.sendMessageToPeers.success then
      (area ++ [data], "")
    else
      (area, value)

end ContentScript

/-- Sanitizer instance for runs over tag-free plain text, on which
`DOMPurify.sanitize` is the identity. -/
def sanitizePlain : String → String := fun s => s

/-- Sanitizer behaviour of `DOMPurify.sanitize` pinned on one concrete
input: a bare `script` element is stripped to the empty string; every other
input used alongside it below is tag-free and left unchanged. -/
def sanitizeScript : String → String :=
  fun s => if s = "<script>alert(1)</script>" then "" else s

/-- Concrete fuzzy matcher instance for the search runs: the pattern matches
a field that starts with it. -/
def startsWithMatch (pat s : String) : Bool := pat.data.isPrefixOf s.data

/-- Save a batch of messages through `saveMessage`, in order. -/
def saveAll (msgs : List MessageData) (db : MessagesDB) : MessagesDB :=
  msgs.foldl (fun d m => (StorageService.saveMessage sanitizePlain 9 d m).1) db

/-- A store holding messages of room `R` at timestamps 1..5, saved in
timestamp order. -/
def dbFive : MessagesDB :=
  saveAll ([1, 2, 3, 4, 5].map (fun t =>
    { roomId := "R", userId := some "u", nickname := some "alice"
      text := "m", timestamp := some t })) MessagesDB.empty

/-- A store where the messages of room `R` were saved out of timestamp
order — first t=5, then t=1 — as happens when a remote peer's older message
arrives after a newer local one. -/
def dbOutOfOrder : MessagesDB :=
  saveAll
    [{ roomId := "R", userId := some "u1", nickname := some "alice"
       text := "late", timestamp := some 5 },
     { roomId := "R", userId := some "u2", nickname := some "bob"
       text := "early", timestamp := some 1 }] MessagesDB.empty

/-- The search-property store of the spec: "hello world"(t=1) and
"hello there"(t=2) in room `R`, an unrelated "hello" in room `S`. -/
def dbSearch : MessagesDB :=
  saveAll
    [{ roomId := "R", userId := some "u", nickname := some "alice"
       text := "hello world", timestamp := some 1 },
     { roomId := "R", userId := some "u", nickname := some "alice"
       text := "hello there", timestamp := some 2 },
     { roomId := "S", userId := some "v", nickname := some "bob"
       text := "hello", timestamp := some 3 }] MessagesDB.empty

/-- A service state with one registered subscriber over an empty store. -/
def oneSubscriberState : P2PState :=
  { P2PState.initial with messageCallbacks := 1 }

/-- A service state on the WebSocket fallback. -/
def fallbackState : P2PState :=
  { P2PState.initial with useWebSocketFallback := true, socketInit := true }

/-- A service state with one open mesh connection. -/
def onePeerState : P2PState :=
  { P2PState.initial with connections := [{ peer := "q", isOpen := true }] }

/-- A concrete wire message. -/
def wireMsg : MessageData :=
  { roomId := "R", userId := some "u", nickname := some "alice"
    text := "hi", timestamp := some 3 }

/-- A concrete wire message whose text DOMPurify strips. -/
def scriptMsg : MessageData :=
  { roomId := "R", userId := some "u", nickname := some "eve"
    text := "<script>alert(1)</script>", timestamp := some 4 }

/-- Invariant: every row of the service's message store has text that is the
sanitizer's output on some input. -/
def SanitizedStore (sanitize : String → String) (s : P2PState) : Prop :=
  ∀ row ∈ s.db.rows, ∃ t, row.text = sanitize t

/-- The first component of `sendMessage` is the state with only the store
updated, on every branch. -/
theorem sendMessage_fst (sanitize : String → String) (now : Nat)
    (data : MessageData) (s : P2PState) :
    (P2PService.sendMessage sanitize now data s).1 =
      { s with db := (StorageService.saveMessage sanitize now s.db data).1 } := by
  unfold P2PService.sendMessage
  split
  · split <;> rfl
  · rfl

/-- The first component of `joinRoom` is the state with only the room id
installed, on every branch. -/
theorem joinRoom_fst (roomId : String) (s : P2PState) :
    (P2PService.joinRoom roomId s).1 = { s with roomId := some roomId } := by
  unfold P2PService.joinRoom
  split <;> rfl

/-- The fallback flag after `initialize`: unchanged when the mesh connect
succeeds, set when it fails. -/
theorem initSession_flag (meshOk : Bool) (fp fr vid : String)
    (stored : Option String) (s : P2PState) :
    (P2PService.initSession meshOk fp fr vid stored s).1.useWebSocketFallback
      = (s.useWebSocketFallback || !meshOk) := by
  unfold P2PService.initSession P2PService.initializeWebSocketFallback
  cases meshOk
  · cases hf : s.useWebSocketFallback <;> simp [hf]
  · simp

/-- The `initialize` state keeps the store untouched on every branch. -/
theorem initSession_db_eq (meshOk : Bool) (fp fr vid : String)
    (stored : Option String) (s : P2PState) :
    (P2PService.initSession meshOk fp fr vid stored s).1.db = s.db := by
  unfold P2PService.initSession P2PService.initializeWebSocketFallback
  cases meshOk
  · cases hf : s.useWebSocketFallback <;> simp [hf]
  · simp

/-- Rows appended by `saveMessage` carry sanitized text, so the
sanitized-store property is preserved. -/
theorem saveMessage_sanitized (sanitize : String → String) (now : Nat)
    (db : MessagesDB) (m : MessageData)
    (h : ∀ row ∈ db.rows, ∃ t, row.text = sanitize t) :
    ∀ row ∈ (StorageService.saveMessage sanitize now db m).1.rows,
      ∃ t, row.text = sanitize t := by
  intro row hrow
  simp only [StorageService.saveMessage, List.mem_append,
    List.mem_singleton] at hrow
  rcases hrow with hrow | hrow
  · exact h row hrow
  · exact ⟨m.text, by rw [hrow]⟩

/-- Every single service operation preserves the sanitized-store property. -/
theorem step_preserves_sanitized (sanitize : String → String)
    (op : P2PService.Op) (s : P2PState) (h : SanitizedStore sanitize s) :
    SanitizedStore sanitize (P2PService.step sanitize op s) := by
  cases op with
  | init meshOk fp fr vid stored =>
      intro row hrow
      rw [P2PService.step, initSession_db_eq] at hrow
      exact h row hrow
  | send now data =>
      intro row hrow
      rw [P2PService.step, sendMessage_fst] at hrow
      exact saveMessage_sanitized sanitize now s.db data h row hrow
  | incoming now data =>
      intro row hrow
      exact saveMessage_sanitized sanitize now s.db data h row hrow
  | join roomId =>
      intro row hrow
      rw [P2PService.step, joinRoom_fst] at hrow
      exact h row hrow
  | subscribe => exact h
  | connect c => exact h
  | disconnectPeer p => exact h
  | teardown => exact h

/-- Any run of service operations preserves the sanitized-store property. -/
theorem run_preserves_sanitized (sanitize : String → String)
    (ops : List P2PService.Op) (s : P2PState)
    (h : SanitizedStore sanitize s) :
    SanitizedStore sanitize (P2PService.run sanitize ops s) := by
  induction ops generalizing s with
  | nil => exact h
  | cons op rest ih => exact ih _ (step_preserves_sanitized sanitize op s h)

/-- Claim C1: counterexample — with the messages of room R saved at t=5 and
then t=1 (a remote peer's older message arriving last), `getMessagesForRoom`
with limit 1 returns the t=1 message although the most recent one is t=5,
and with limit 2 it returns [t=5, t=1], which is not ascending timestamp
order: the enumeration is by primary key, not by timestamp. -/
theorem C1_counterexample :
    ((StorageService.getMessagesForRoom dbOutOfOrder "R" 1).map
        (fun m => m.timestamp) = [1]) ∧
    ((StorageService.getMessagesForRoom dbOutOfOrder "R" 2).map
        (fun m => m.timestamp) = [5, 1]) ∧
    ¬ (StorageService.getMessagesForRoom dbOutOfOrder "R" 2).Pairwise tsLe := by
  decide

/-- Claim C1 (amended): `getMessagesForRoom db r n` returns the last `n`
stored messages of room `r` in primary-key (insertion) order; whenever the
room's stored messages have nondecreasing timestamps in insertion order —
in particular whenever messages are stored in timestamp order — this is
exactly the `n` most recent messages in ascending timestamp order. -/
theorem C1_getMessages_insertion_suffix (db : MessagesDB) (r : String)
    (n : Nat) (h : (StorageService.whereRoomId db r).Pairwise tsLe) :
    StorageService.getMessagesForRoom db r n =
      (StorageService.whereRoomId db r).drop
        ((StorageService.whereRoomId db r).length - n) ∧
    (StorageService.getMessagesForRoom db r n).Pairwise tsLe := by
  have heq : StorageService.getMessagesForRoom db r n =
      (StorageService.whereRoomId db r).drop
        ((StorageService.whereRoomId db r).length - n) := by
    unfold StorageService.getMessagesForRoom
    rw [List.take_reverse, List.reverse_reverse]
  refine ⟨heq, ?_⟩
  rw [heq]
  exact List.Pairwise.sublist (List.drop_sublist _ _) h

/-- Claim C1 witness: the spec's concrete instance — messages at t=1..5 in
room R, limit 3 — yields [t=3, t=4, t=5]. -/
theorem C1_witness :
    ((StorageService.getMessagesForRoom dbFive "R" 3).map
        (fun m => m.timestamp) = [3, 4, 5]) ∧
    (StorageService.getMessagesForRoom dbFive "R" 3 =
      (StorageService.whereRoomId dbFive "R").drop
        ((StorageService.whereRoomId dbFive "R").length - 3) ∧
     (StorageService.getMessagesForRoom dbFive "R" 3).Pairwise tsLe) :=
  ⟨by decide, C1_getMessages_insertion_suffix dbFive "R" 3 (by decide)⟩

/-- Claim C2: `searchMessages` returns only messages of the queried room,
ordered ascending by timestamp regardless of the fuzzy match scores, and the
empty query yields the empty result set — for every fuzzy matcher over the
configured `text` and `nickname` keys. -/
theorem C2_search_scoped_sorted_empty (fmatch : String → String → Bool)
    (db : MessagesDB) (r q : String) :
    (∀ m ∈ StorageService.searchMessages fmatch db r q, m.roomId = r) ∧
    (StorageService.searchMessages fmatch db r q).Pairwise tsLe ∧
    StorageService.searchMessages fmatch db r "" = [] := by
  refine ⟨?_, ?_, ?_⟩
  · intro m hm
    simp only [StorageService.searchMessages] at hm
    rw [List.mem_insertionSort] at hm
    unfold StorageService.fuseSearch at hm
    by_cases hq : q = ""
    · rw [if_pos hq] at hm
      exact absurd hm (List.not_mem_nil m)
    · rw [if_neg hq] at hm
      have h1 := (List.mem_filter.mp hm).1
      unfold StorageService.whereRoomId at h1
      exact beq_iff_eq.mp (List.mem_filter.mp h1).2
  · exact List.sorted_insertionSort tsLe _
  · simp [StorageService.searchMessages, StorageService.fuseSearch]

/-- Claim C2 witness: the spec's concrete instance — "hello world"(t=1) and
"hello there"(t=2) in room R, "hello" in room S — searching R for "hello"
returns exactly the two room-R messages in order [t=1, t=2], and the empty
query returns []. -/
theorem C2_witness :
    ((StorageService.searchMessages startsWithMatch dbSearch "R" "hello").map
        (fun m => m.timestamp) = [1, 2]) ∧
    (∀ m ∈ StorageService.searchMessages startsWithMatch dbSearch "R" "hello",
        m.roomId = "R") ∧
    StorageService.searchMessages startsWithMatch dbSearch "R" "" = [] :=
  ⟨by decide,
   (C2_search_scoped_sorted_empty startsWithMatch dbSearch "R" "hello").1,
   (C2_search_scoped_sorted_empty startsWithMatch dbSearch "R" "hello").2.2⟩

/-- Claim C9: evaluation of the code at the failing behaviour — `getRooms`
returns the empty list on every store, because `orderBy('lastActive')` fails
with `SchemaError` (`lastActive` is not among the declared indexes
`'id, name, createdAt'` of the rooms table) and the catch turns the failure
into `[]`; no store is ever returned sorted by last activity. -/
theorem C9_getRooms_always_empty (db : StorageService.RoomsDB) :
    StorageService.getRooms db = [] := by
  unfold StorageService.getRooms StorageService.roomsOrderBy
  rw [if_neg (by decide)]

/-- Claim C3: counterexample — delivering the same wire message twice to a
service with one subscriber and an empty store yields two stored records and
two subscriber notifications in total, not one of each: the handler performs
no deduplication before persisting and forwarding. -/
theorem C3_counterexample :
    ((P2PService.handleIncomingMessage sanitizePlain 3 wireMsg
        (P2PService.handleIncomingMessage sanitizePlain 3 wireMsg
          oneSubscriberState).1).1).db.rows.length = 2 ∧
    ((P2PService.handleIncomingMessage sanitizePlain 3 wireMsg
        oneSubscriberState).2.length +
     (P2PService.handleIncomingMessage sanitizePlain 3 wireMsg
        (P2PService.handleIncomingMessage sanitizePlain 3 wireMsg
          oneSubscriberState).1).2.length) = 2 := by
  decide

/-- Claim C3 (amended): `handleIncomingMessage` deduplicates nothing — every
delivery of a wire message appends one stored record and notifies every
subscriber once, so delivering the same message twice stores two records and
notifies each subscriber twice. -/
theorem C3_no_dedup (sanitize : String → String) (now : Nat)
    (data : MessageData) (s : P2PState) :
    ((P2PService.handleIncomingMessage sanitize now data
        (P2PService.handleIncomingMessage sanitize now data s).1).1).db.rows.length
      = s.db.rows.length + 2 ∧
    (P2PService.handleIncomingMessage sanitize now data s).2 =
      List.replicate s.messageCallbacks data ∧
    (P2PService.handleIncomingMessage sanitize now data
        (P2PService.handleIncomingMessage sanitize now data s).1).2 =
      List.replicate s.messageCallbacks data := by
  refine ⟨?_, rfl, rfl⟩
  simp [P2PService.handleIncomingMessage, StorageService.saveMessage]

/-- Claim C4: counterexample — an incoming message whose text DOMPurify would
strip reaches the subscribers and the displayed feed raw: both the
notification payload and the `ChatContainer` feed hold the unsanitized text,
and the same raw text is echoed to the feed by the input-box send path; only
the stored record is sanitized. -/
theorem C4_counterexample :
    (P2PService.handleIncomingMessage sanitizeScript 4 scriptMsg
        oneSubscriberState).2 = [scriptMsg] ∧
    ChatContainer.onIncoming [] scriptMsg = [scriptMsg] ∧
    scriptMsg.text ≠ sanitizeScript scriptMsg.text ∧
    ((P2PService.handleIncomingMessage sanitizeScript 4 scriptMsg
        oneSubscriberState).1.db.rows.map (fun r => r.text) = [""]) ∧
    ((InputBox.sendMessage sanitizeScript 4 scriptMsg.text "eve" "R"
        (some "u") P2PState.initial []).2.2.1.map (fun d => d.text)
      = [scriptMsg.text]) := by
  decide

/-- Claim C4 (amended): every record ever present in the message store of a
reachable service state has sanitized text — both the send path and the
incoming path persist through `saveMessage`, which applies the sanitizer —
although the text forwarded for display is the raw input. -/
theorem C4_store_always_sanitized (sanitize : String → String)
    (ops : List P2PService.Op) :
    SanitizedStore sanitize (P2PService.run sanitize ops P2PState.initial) := by
  apply run_preserves_sanitized
  intro row hrow
  simp [P2PState.initial, MessagesDB.empty] at hrow

/-- Claim C4 witness: a concrete run — one incoming script message — whose
store satisfies the sanitized-store property and holds exactly the stripped
text. -/
theorem C4_witness :
    SanitizedStore sanitizeScript
      (P2PService.run sanitizeScript [P2PService.Op.incoming 4 scriptMsg]
        P2PState.initial) ∧
    ((P2PService.run sanitizeScript [P2PService.Op.incoming 4 scriptMsg]
        P2PState.initial).db.rows.map (fun r => r.text) = [""]) :=
  ⟨C4_store_always_sanitized sanitizeScript [P2PService.Op.incoming 4 scriptMsg],
   by decide⟩

/-- Claim C5: transport selection happens at most once per session — a mesh
connect failure in a fresh session immediately activates the WebSocket
fallback and reports success over it, and once the fallback flag is set no
service operation whatsoever clears it again. -/
theorem C5_fallback_selected_once (sanitize : String → String)
    (fp fr vid : String) (stored : Option String) (s : P2PState)
    (op : P2PService.Op) (s2 : P2PState)
    (hs : s.useWebSocketFallback = false)
    (hs2 : s2.useWebSocketFallback = true) :
    (P2PService.initSession false fp fr vid stored s).1.useWebSocketFallback
      = true ∧
    (P2PService.initSession false fp fr vid stored s).2.2.success = true ∧
    (P2PService.initSession false fp fr vid stored s).2.2.usingFallback
      = true ∧
    (P2PService.step sanitize op s2).useWebSocketFallback = true := by
  refine ⟨?_, ?_, ?_, ?_⟩
  · rw [initSession_flag, hs]
    rfl
  · unfold P2PService.initSession P2PService.initializeWebSocketFallback
    simp [hs]
  · unfold P2PService.initSession P2PService.initializeWebSocketFallback
    simp [hs]
  · cases op with
    | init meshOk fp2 fr2 vid2 stored2 =>
        rw [P2PService.step, initSession_flag, hs2]
        rfl
    | send now data =>
        rw [P2PService.step, sendMessage_fst]
        exact hs2
    | incoming now data => exact hs2
    | join roomId =>
        rw [P2PService.step, joinRoom_fst]
        exact hs2
    | subscribe => exact hs2
    | connect c => exact hs2
    | disconnectPeer p => exact hs2
    | teardown => exact hs2

/-- Claim C5 witness: a fresh session whose mesh connect fails ends up on the
fallback with a success result, and a teardown on a fallback session leaves
the flag set. -/
theorem C5_witness :
    (P2PService.initSession false "p" "r" "v" none
        P2PState.initial).1.useWebSocketFallback = true ∧
    (P2PService.initSession false "p" "r" "v" none
        P2PState.initial).2.2.success = true ∧
    (P2PService.initSession false "p" "r" "v" none
        P2PState.initial).2.2.usingFallback = true ∧
    (P2PService.step sanitizePlain P2PService.Op.teardown
        fallbackState).useWebSocketFallback = true :=
  C5_fallback_selected_once sanitizePlain "p" "r" "v" none P2PState.initial
    P2PService.Op.teardown fallbackState rfl rfl

/-- Claim C6: empty or whitespace-only input is rejected synchronously with
no side effects in both send paths — the service state (store included) is
unchanged, no transport event is emitted, nothing is appended to the feed
and the input is not cleared. -/
theorem C6_blank_text_rejected (sanitize : String → String) (now : Nat)
    (text nickname roomId : String) (userId : Option String) (s : P2PState)
    (feed : List MessageData) (nick : Option String)
    (area : List ContentScript.BgMessage)
    (h : jsTrim text = "") :
    InputBox.sendMessage sanitize now text nickname roomId userId s feed =
      (s, [], feed, text) ∧
    ContentScript.sendMessage text userId nick now area = (area, text) := by
  constructor
  · unfold InputBox.sendMessage
    rw [if_pos h]
  · simp only [ContentScript.sendMessage]
    rw [if_pos h]

/-- Claim C6 witness: the whitespace-only input consisting of three spaces is
rejected by both paths with everything unchanged. -/
theorem C6_witness :
    InputBox.sendMessage sanitizePlain 7 "   " "alice" "R" (some "u")
      P2PState.initial [] = (P2PState.initial, [], [], "   ") ∧
    ContentScript.sendMessage "   " (some "u") none 7 [] = ([], "   ") :=
  C6_blank_text_rejected sanitizePlain 7 "   " "alice" "R" (some "u")
    P2PState.initial [] none [] (by decide)

/-- Claim C7: counterexample — the result of `sendMessage` is the same
`{success: true}` whether zero or one peer connection is open, even though
the mesh branch inspects exactly which connections are open: no
PartialDelivery (nor any other) signal distinguishes the unreachable case. -/
theorem C7_counterexample :
    (P2PService.sendMessage sanitizePlain 3 wireMsg P2PState.initial).2.1 =
      (P2PService.sendMessage sanitizePlain 3 wireMsg onePeerState).2.1 ∧
    (P2PService.sendMessage sanitizePlain 3 wireMsg P2PState.initial).2.2
      = [] ∧
    (P2PService.sendMessage sanitizePlain 3 wireMsg onePeerState).2.2 ≠ [] := by
  decide

/-- Claim C7 (amended): with no open connections on the mesh transport,
`sendMessage` still succeeds locally — the message is persisted through
`saveMessage` — and nothing is sent to any peer; but the returned result is
the constant `{success: true}`, carrying no partial-delivery signal. -/
theorem C7_send_unreachable_succeeds (sanitize : String → String) (now : Nat)
    (data : MessageData) (s : P2PState)
    (hfb : s.useWebSocketFallback = false)
    (hconn : s.connections.filter (fun c => c.isOpen) = []) :
    (P2PService.sendMessage sanitize now data s).2.1 =
      { success := true, error := none } ∧
    (P2PService.sendMessage sanitize now data s).2.2 = [] ∧
    (P2PService.sendMessage sanitize now data s).1.db =
      (StorageService.saveMessage sanitize now s.db data).1 := by
  unfold P2PService.sendMessage
  simp [hfb, hconn]

/-- Claim C7 witness: a fresh session with no connections — the send result
is a plain success, no peer receives anything, and the store gains the
message. -/
theorem C7_witness :
    (P2PService.sendMessage sanitizePlain 3 wireMsg P2PState.initial).2.1 =
      { success := true, error := none } ∧
    (P2PService.sendMessage sanitizePlain 3 wireMsg P2PState.initial).2.2
      = [] ∧
    (P2PService.sendMessage sanitizePlain 3 wireMsg P2PState.initial).1.db =
      (StorageService.saveMessage sanitizePlain 3 P2PState.initial.db
        wireMsg).1 :=
  C7_send_unreachable_succeeds sanitizePlain 3 wireMsg P2PState.initial rfl rfl

/-- Claim C8: identity creation is idempotent per installation, for both the
background worker's user id and the service's peer id: a second call returns
exactly the id stored by the first call and leaves storage unchanged, and
once a truthy id is in storage every call returns it as is. -/
theorem C8_identity_idempotent (fresh1 fresh2 : String) (st : Option String)
    (v : String) (h1 : fresh1 ≠ "") (hv : v ≠ "") :
    (P2PService.ensurePeerId fresh2 (P2PService.ensurePeerId fresh1 st).2).1 =
      (P2PService.ensurePeerId fresh1 st).1 ∧
    (P2PService.ensurePeerId fresh2 (P2PService.ensurePeerId fresh1 st).2).2 =
      (P2PService.ensurePeerId fresh1 st).2 ∧
    (Background.ensureUserId fresh2 (Background.ensureUserId fresh1 st).2).1 =
      (Background.ensureUserId fresh1 st).1 ∧
    (Background.ensureUserId fresh2 (Background.ensureUserId fresh1 st).2).2 =
      (Background.ensureUserId fresh1 st).2 ∧
    P2PService.ensurePeerId fresh2 (some v) = (v, some v) ∧
    Background.ensureUserId fresh2 (some v) = (v, some v) := by
  unfold P2PService.ensurePeerId Background.ensureUserId jsOrStr jsTruthyStr
  rcases st with _ | w
  · simp [h1, hv]
  · by_cases hw : w = "" <;> simp [h1, hv, hw]

/-- Claim C8 witness: a fresh installation adopting uuid-1 keeps returning it
when identity creation runs again with a different fresh uuid, and a stored
id `seed` is returned unchanged. -/
theorem C8_witness :
    (P2PService.ensurePeerId "uuid-2" (P2PService.ensurePeerId "uuid-1"
        none).2).1 = (P2PService.ensurePeerId "uuid-1" none).1 ∧
    (P2PService.ensurePeerId "uuid-2" (P2PService.ensurePeerId "uuid-1"
        none).2).2 = (P2PService.ensurePeerId "uuid-1" none).2 ∧
    (Background.ensureUserId "uuid-2" (Background.ensureUserId "uuid-1"
        none).2).1 = (Background.ensureUserId "uuid-1" none).1 ∧
    (Background.ensureUserId "uuid-2" (Background.ensureUserId "uuid-1"
        none).2).2 = (Background.ensureUserId "uuid-1" none).2 ∧
    P2PService.ensurePeerId "uuid-2" (some "seed") = ("seed", some "seed") ∧
    Background.ensureUserId "uuid-2" (some "seed") = ("seed", some "seed") :=
  C8_identity_idempotent "uuid-1" "uuid-2" none "seed" (by decide) (by decide)

/-- Claim C10: `joinRoom` accepts any room id without validating it: unless
the service is in the degenerate fallback-without-socket state, it returns a
success result carrying the very same room id, and it installs that id as
the active room unconditionally. -/
theorem C10_joinRoom_unvalidated (roomId : String) (s : P2PState)
    (h : s.useWebSocketFallback = false ∨ s.socketInit = true) :
    (P2PService.joinRoom roomId s).2.2.success = true ∧
    (P2PService.joinRoom roomId s).2.2.roomId = some roomId ∧
    (P2PService.joinRoom roomId s).1.roomId = some roomId := by
  refine ⟨?_, ?_, ?_⟩
  · unfold P2PService.joinRoom
    rcases h with h | h <;> simp [h]
  · unfold P2PService.joinRoom
    rcases h with h | h <;> simp [h]
  · rw [joinRoom_fst]

/-- Claim C10 witness: joining the arbitrary string id `yt-x-1` (no such
room was ever created) succeeds and installs it as the active room. -/
theorem C10_witness :
    (P2PService.joinRoom "yt-x-1" P2PState.initial).2.2.success = true ∧
    (P2PService.joinRoom "yt-x-1" P2PState.initial).2.2.roomId
      = some "yt-x-1" ∧
    (P2PService.joinRoom "yt-x-1" P2PState.initial).1.roomId
      = some "yt-x-1" :=
  C10_joinRoom_unvalidated "yt-x-1" P2PState.initial (Or.inl rfl)
